import Mathlib

/-!
Shallow embedding of the research core of the meta-ads-generator repository.

Embedded source files:
* src/lib/research/research-orchestrator.ts (orchestrator, scoring, heuristics)
* src/lib/cache/redis-client.ts (cache key derivation, get/set flag handling)
* src/lib/research/serp-client.ts (pain-point deduplication, result shaping)
* src/lib/research/firecrawl-client.ts (scrape retry loop)
* src/app/api/research route (environment validation, input construction)

Strings are modelled as lists of characters; JavaScript string methods used by
the sources (toLowerCase, includes, replace, trim, split, slice) are embedded
as executable functions below.  External network effects are modelled by
passing each call's outcome explicitly (Except for fallible calls, Option for
the cache fetch); the platform URL parser is modelled by passing the parsed
hostname as an Option (none when parsing throws).
-/

set_option maxRecDepth 8000

/-- Character-list strings, the carrier for all embedded text. -/
abbrev Str := List Char

/-- The character data of a string literal. -/
def str (s : String) : Str := s.data

/-- JavaScript toLowerCase, restricted to the ASCII range the sources use. -/
def lowerStr (s : Str) : Str := s.map Char.toLower

/-- Does the second list start with the first one? -/
def isPre : Str → Str → Bool
  | [], _ => true
  | _ :: _, [] => false
  | p :: ps, c :: cs => p == c && isPre ps cs

/-- JavaScript String.prototype.includes: substring containment. -/
def containsStr : Str → Str → Bool
  | [], pat => isPre pat []
  | c :: cs, pat => isPre pat (c :: cs) || containsStr cs pat

/-- JavaScript String.prototype.replace with a plain string pattern:
replaces only the FIRST occurrence of the pattern. -/
def replaceFirst : Str → Str → Str → Str
  | [], pat, rep => if isPre pat [] then rep else []
  | c :: cs, pat, rep =>
    if isPre pat (c :: cs) then rep ++ (c :: cs).drop pat.length
    else c :: replaceFirst cs pat rep

/-- JavaScript String.prototype.trim, over ASCII whitespace. -/
def trimStr (s : Str) : Str :=
  ((s.dropWhile Char.isWhitespace).reverse.dropWhile Char.isWhitespace).reverse

/-- Accumulator pass for splitting at whitespace runs. -/
def splitWsAux : Str → Str → List Str
  | cur, [] => if cur.isEmpty then [] else [cur.reverse]
  | cur, c :: cs =>
    if c.isWhitespace then
      if cur.isEmpty then splitWsAux [] cs else cur.reverse :: splitWsAux [] cs
    else splitWsAux (c :: cur) cs

/-- JavaScript split(/\s+/) as used in the sources: both call sites
immediately filter tokens by length > 4, which discards the empty edge
tokens JavaScript can produce, so dropping them here is observationally
equivalent. -/
def splitWsTokens (s : Str) : List Str := splitWsAux [] s

/-- Decimal rendering of a number (JavaScript template interpolation). -/
def natToStr (n : Nat) : Str := (Nat.repr n).data

/-- ASCII letters and digits, the class [a-zA-Z0-9]. -/
def isAsciiAlphanum (c : Char) : Bool :=
  ('a' ≤ c && c ≤ 'z') || ('A' ≤ c && c ≤ 'Z') || ('0' ≤ c && c ≤ '9')

/-! ## Data model (src/types/research.ts and serp-client.ts interfaces) -/

/-- Brand tone enumeration from the BrandResearch interface. -/
inductive Tone
  | professional | casual | friendly | urgent | humorous | authoritative | playful
deriving DecidableEq

/-- Research objective enumeration from the ResearchInput interface. -/
inductive Objective
  | competitorAnalysis | marketTrends | audienceInsights | fullResearch
deriving DecidableEq

/-- Awareness level enumeration from the AudienceProfile interface. -/
inductive AwarenessLevel
  | unaware | problemAware | solutionAware | productAware | mostAware
deriving DecidableEq

/-- Income level enumeration from the AudienceProfile interface. -/
inductive IncomeLevel
  | budget | midRange | premium | luxury
deriving DecidableEq

/-- Trend volume tag from the MarketIntelligence interface. -/
inductive TrendVolume
  | high | medium | low
deriving DecidableEq

/-- Trend momentum tag from the MarketIntelligence interface. -/
inductive TrendMomentum
  | rising | stable | declining
deriving DecidableEq

/-- Provenance type tag from the ResearchResult sources field. -/
inductive SourceType
  | webScrape | searchResults | contentAnalysis
deriving DecidableEq

/-- Source reliability tag from the ResearchResult sources field. -/
inductive Reliability
  | high | medium | low
deriving DecidableEq

/-- ResearchInput (src/types/research.ts).  The TypeScript interface has no
location field, yet the orchestrator reads input.location at runtime; a
caller could pass the property as an untyped extra, so it is modelled as an
Option (none when the property is absent, hence undefined). -/
structure ResearchInput where
  url : Str
  productType : Str
  objective : Objective
  location : Option Str
deriving DecidableEq

/-- BrandResearch (src/types/research.ts). -/
structure BrandResearch where
  name : Str
  tone : Tone
  valueProposition : Str
  differentiators : List Str
  productCategories : List Str
  targetMarkets : List Str
deriving DecidableEq

/-- CompetitorResult (src/lib/research/serp-client.ts). -/
structure CompetitorResult where
  name : Str
  url : Str
  title : Str
  description : Str
  position : Nat
deriving DecidableEq

/-- TrendData (src/lib/research/serp-client.ts). -/
structure TrendData where
  keyword : Str
  relatedQueries : List Str
  risingTopics : List Str
deriving DecidableEq

/-- PainPoint (src/lib/research/serp-client.ts). -/
structure PainPoint where
  text : Str
  source : Str
  url : Str
  mentions : Nat
deriving DecidableEq

/-- One competitor entry inside CompetitorInsight. -/
structure CompetitorEntry where
  name : Str
  url : Str
  strengths : List Str
  weaknesses : List Str
deriving DecidableEq

/-- CompetitorInsight (src/types/research.ts). -/
structure CompetitorInsight where
  competitors : List CompetitorEntry
  commonMessages : List Str
  opportunities : List Str
  pricingStrategies : List Str
  uniqueAngles : List Str
deriving DecidableEq

/-- One trend entry inside MarketIntelligence. -/
structure TrendEntry where
  topic : Str
  volume : TrendVolume
  momentum : TrendMomentum
deriving DecidableEq

/-- One seasonal pattern entry inside MarketIntelligence. -/
structure SeasonalPattern where
  period : Str
  insight : Str
deriving DecidableEq

/-- MarketIntelligence (src/types/research.ts). -/
structure MarketIntelligence where
  trends : List TrendEntry
  painPoints : List Str
  popularSearches : List Str
  seasonalPatterns : List SeasonalPattern
  emergingOpportunities : List Str
deriving DecidableEq

/-- Demographics block of AudienceProfile. -/
structure Demographics where
  ageRanges : List Str
  locations : List Str
  incomeLevel : IncomeLevel
  occupation : List Str
deriving DecidableEq

/-- Common-language block of AudienceProfile. -/
structure CommonLanguage where
  keywords : List Str
  phrases : List Str
  jargon : List Str
  emotionalTriggers : List Str
deriving DecidableEq

/-- Behaviors block of AudienceProfile. -/
structure Behaviors where
  purchaseDrivers : List Str
  objections : List Str
  preferredChannels : List Str
deriving DecidableEq

/-- AudienceProfile (src/types/research.ts). -/
structure AudienceProfile where
  demographics : Demographics
  awarenessLevel : AwarenessLevel
  commonLanguage : CommonLanguage
  behaviors : Behaviors
deriving DecidableEq

/-- One provenance entry of ResearchResult.sources. -/
structure ResearchSource where
  type : SourceType
  url : Str
  reliability : Reliability
deriving DecidableEq

/-- ResearchResult (src/types/research.ts), the aggregate root. -/
structure ResearchResult where
  brand : BrandResearch
  competitors : CompetitorInsight
  market : MarketIntelligence
  audience : AudienceProfile
  timestamp : Str
  cached : Bool
  qualityScore : Nat
  sources : List ResearchSource
deriving DecidableEq

/-! ## SerpAPI client model (src/lib/research/serp-client.ts) -/

/-- The normalized comparison key of deduplicatePainPoints: the text is
lowercased, every character outside [a-z0-9\s] is removed (so whitespace is
KEPT), the ends are trimmed, and the first 50 characters are taken. -/
def painPointKey (text : Str) : Str :=
  (trimStr ((lowerStr text).filter
    (fun c => ('a' ≤ c && c ≤ 'z') || ('0' ≤ c && c ≤ '9') || c.isWhitespace))).take 50

/-- The seen-set loop body of deduplicatePainPoints: walk the list keeping a
point only when its key has not been seen before. -/
def dedupAux (seen : List Str) : List PainPoint → List PainPoint
  | [] => []
  | p :: ps =>
    if painPointKey p.text ∈ seen then dedupAux seen ps
    else p :: dedupAux (painPointKey p.text :: seen) ps

/-- deduplicatePainPoints (src/lib/research/serp-client.ts, lines 326-345). -/
def deduplicatePainPoints (painPoints : List PainPoint) : List PainPoint :=
  dedupAux [] painPoints

/-- The result shaping at the end of searchPainPoints (lines 294-297):
deduplicate the collected pain points and return at most 10.  The collection
loop over the three sub-queries is network-driven and is modelled by passing
the collected list. -/
def searchPainPoints (collected : List PainPoint) : List PainPoint :=
  (deduplicatePainPoints collected).take 10

/-! ## Firecrawl client model (src/lib/research/firecrawl-client.ts) -/

deriving instance DecidableEq for Except

/-- Outcome of a scrapeWebsite call: terminal result, number of attempts
made against the scraping service, and the backoff sleeps performed. -/
structure ScrapeResult where
  outcome : Except Str Str
  attempts : Nat
  delays : List Nat
deriving DecidableEq

/-- The error-message marker that classifies a failure as a rate limit. -/
def rateLimitMark : Str := str ("rate limit")

/-- The retry loop of scrapeWebsite (lines 144-182): attempt counts up from
1; a rate-limit failure sleeps 5000*attempt (also on the final attempt), any
other failure sleeps 1000*2^(attempt-1) only when attempts remain.  The
oracle gives each attempt's outcome (the no-markdown check included, since
its throw is caught by the same handler). -/
def scrapeGo (oracle : Nat → Except Str Str) (maxRetries : Nat) (url : Str) :
    Nat → Nat → Str → Except Str Str × Nat × List Nat
  | _, 0, lastMsg =>
    (.error (str ("Failed to scrape ") ++ url ++ str (" after ") ++
      natToStr maxRetries ++ str (" attempts: ") ++ lastMsg), 0, [])
  | attempt, fuel + 1, _ =>
    match oracle attempt with
    | .ok md => (.ok md, 1, [])
    | .error msg =>
      let ds := if containsStr msg rateLimitMark then [5000 * attempt]
        else if attempt < maxRetries then [1000 * 2 ^ (attempt - 1)] else []
      let rest := scrapeGo oracle maxRetries url (attempt + 1) fuel msg
      (rest.1, rest.2.1 + 1, ds ++ rest.2.2)

/-- scrapeWebsite (lines 127-188): an invalid URL is rejected before any
attempt; otherwise up to maxRetries attempts are made.  urlValid models the
isValidUrl check (whether the platform URL constructor accepts the string). -/
def scrapeWebsite (urlValid : Bool) (url : Str) (oracle : Nat → Except Str Str)
    (maxRetries : Nat) : ScrapeResult :=
  if !urlValid then
    { outcome := .error (str ("Invalid URL format: ") ++ url), attempts := 0, delays := [] }
  else
    let r := scrapeGo oracle maxRetries url 1 maxRetries []
    { outcome := r.1, attempts := r.2.1, delays := r.2.2 }

/-! ## Redis cache client model (src/lib/cache/redis-client.ts) -/

/-- Cache TTL: 7 days in seconds. -/
def CACHE_TTL : Nat := 7 * 24 * 60 * 60

/-- Sanitization of a single character in the parse-failure branch of
getCacheKey: url.replace(/[^a-zA-Z0-9]/g, underscore). -/
def sanitizeChar (c : Char) : Char := if isAsciiAlphanum c then c else '_'

/-- getCacheKey (redis-client.ts, lines 411-421).  hostname is the result of
the platform URL constructor on the url (none when it throws); on success the
key is the hostname with the first occurrence of "www." removed — JavaScript
replace with a string pattern — after the "research:" marker. -/
def getCacheKey (hostname : Option Str) (url : Str) : Str :=
  match hostname with
  | some host => str ("research:") ++ replaceFirst host (str ("www.")) []
  | none => str ("research:") ++ url.map sanitizeChar

/-- getCachedResearch (redis-client.ts, lines 429-494), modelled on the value
level: fetched is the deserialized record when the store lookup succeeded
(none covers an unconfigured store, transport errors, non-success statuses,
missing values, and parse failures, all of which return null).  On success
the cached flag is force-set to true before returning. -/
def getCachedResearch (fetched : Option ResearchResult) : Option ResearchResult :=
  match fetched with
  | none => none
  | some d => some { d with cached := true }

/-- setCachedResearch (redis-client.ts, lines 502-545), modelled as the
record actually serialized into the store: the input with the cached flag
forced to false (the dataToCache spread). -/
def setCachedResearch (data : ResearchResult) : ResearchResult :=
  { data with cached := false }

/-! ## Orchestrator helpers (src/lib/research/research-orchestrator.ts) -/

/-- extractLocation (lines 209-220): substring checks over the hostname of
the URL (none when the URL constructor throws, giving the catch branch). -/
def extractLocation (hostname : Option Str) : Str :=
  match hostname with
  | some h =>
    if containsStr h (str (".uk")) then str ("United Kingdom")
    else if containsStr h (str (".ca")) then str ("Canada")
    else if containsStr h (str (".au")) then str ("Australia")
    else str ("USA")
  | none => str ("USA")

/-- Line 75: input.location || extractLocation(input.url); an absent
property and an empty string are both falsy. -/
def usedLocation (input : ResearchInput) (hostname : Option Str) : Str :=
  match input.location with
  | some l => if l.isEmpty then extractLocation hostname else l
  | none => extractLocation hostname

/-- The fixed keyword list of extractStrengths. -/
def strengthKeywords : List Str :=
  [str ("best"), str ("top"), str ("leading"), str ("popular"),
   str ("trusted"), str ("award"), str ("certified")]

/-- extractStrengths (lines 222-233): a canonical phrase per keyword found
in the lowercased description, in keyword order, at most 3. -/
def extractStrengths (description : Str) : List Str :=
  ((strengthKeywords.filter (fun kw => containsStr (lowerStr description) kw)).map
    (fun kw => str ("Recognized as ") ++ kw ++ str (" in market"))).take 3

/-- Insertion into a JavaScript Set: sets preserve insertion order and drop
repeats. -/
def addUnique (msgs : List Str) (m : Str) : List Str :=
  if m ∈ msgs then msgs else msgs ++ [m]

/-- The canonical messages one competitor description contributes, in the
order the checks appear in extractCommonMessages. -/
def competitorMessages (description : Str) : List Str :=
  let desc := lowerStr description
  (if containsStr desc (str ("quality")) then [str ("Focus on quality")] else []) ++
  (if containsStr desc (str ("affordable")) || containsStr desc (str ("price")) then
    [str ("Competitive pricing")] else []) ++
  (if containsStr desc (str ("fast")) || containsStr desc (str ("quick")) then
    [str ("Speed and efficiency")] else []) ++
  (if containsStr desc (str ("service")) then [str ("Customer service focus")] else []) ++
  (if containsStr desc (str ("expert")) then [str ("Expertise and experience")] else [])

/-- extractCommonMessages (lines 235-248): fold the per-competitor messages
through an insertion-ordered set, then take 5. -/
def extractCommonMessages (competitors : List CompetitorResult) : List Str :=
  (competitors.foldl (fun acc comp => (competitorMessages comp.description).foldl addUnique acc)
    []).take 5

/-- The display text of a brand tone, as interpolated into template strings. -/
def toneStr : Tone → Str
  | .professional => str ("professional")
  | .casual => str ("casual")
  | .friendly => str ("friendly")
  | .urgent => str ("urgent")
  | .humorous => str ("humorous")
  | .authoritative => str ("authoritative")
  | .playful => str ("playful")

/-- identifyOpportunities (lines 250-268). -/
def identifyOpportunities (brand : BrandResearch) (competitors : List CompetitorResult) :
    List Str :=
  ((match brand.differentiators with
    | [] => []
    | d :: _ => [str ("Emphasize unique ") ++ d]) ++
   (if competitors.length < 5 then [str ("Market has room for growth and new entrants")]
    else []) ++
   [str ("Leverage ") ++ toneStr brand.tone ++ str (" tone to stand out")]).take 5

/-- suggestUniqueAngles (lines 270-282); targetMarkets[0] || fallback means
an absent or empty first market falls back to "market segment". -/
def suggestUniqueAngles (brand : BrandResearch) : List Str :=
  ([str ("Focus on \"") ++ brand.valueProposition ++ str ("\"")] ++
   (match brand.differentiators with
    | d0 :: d1 :: _ => [str ("Combine ") ++ d0 ++ str (" with ") ++ d1]
    | _ => []) ++
   [str ("Target underserved ") ++
     (match brand.targetMarkets with
      | [] => str ("market segment")
      | m :: _ => if m.isEmpty then str ("market segment") else m)]).take 5

/-- inferAgeRanges (lines 284-299). -/
def inferAgeRanges (targetMarkets : List Str) : List Str :=
  let markets := lowerStr (List.intercalate (str (" ")) targetMarkets)
  if containsStr markets (str ("young")) || containsStr markets (str ("millennial")) ||
      containsStr markets (str ("gen z")) then
    [str ("18-24"), str ("25-34")]
  else if containsStr markets (str ("professional")) || containsStr markets (str ("business")) then
    [str ("25-34"), str ("35-44"), str ("45-54")]
  else if containsStr markets (str ("senior")) || containsStr markets (str ("retiree")) then
    [str ("55-64"), str ("65+")]
  else
    [str ("25-34"), str ("35-44")]

/-- inferIncomeLevel (lines 301-317). -/
def inferIncomeLevel (productCategories : List Str) : IncomeLevel :=
  let categories := lowerStr (List.intercalate (str (" ")) productCategories)
  if containsStr categories (str ("luxury")) || containsStr categories (str ("premium")) ||
      containsStr categories (str ("high-end")) then
    .luxury
  else if containsStr categories (str ("professional")) ||
      containsStr categories (str ("enterprise")) then
    .premium
  else if containsStr categories (str ("affordable")) ||
      containsStr categories (str ("budget")) then
    .budget
  else
    .midRange

/-- inferOccupations (lines 319-330). -/
def inferOccupations (targetMarkets : List Str) : List Str :=
  let markets := lowerStr (List.intercalate (str (" ")) targetMarkets)
  let occupations :=
    (if containsStr markets (str ("professional")) then [str ("Professionals")] else []) ++
    (if containsStr markets (str ("business")) || containsStr markets (str ("entrepreneur")) then
      [str ("Business Owners")] else []) ++
    (if containsStr markets (str ("developer")) || containsStr markets (str ("tech")) then
      [str ("Tech Workers")] else []) ++
    (if containsStr markets (str ("marketer")) then [str ("Marketing Professionals")] else []) ++
    (if containsStr markets (str ("student")) then [str ("Students")] else [])
  if occupations.isEmpty then [str ("General Public")] else occupations

/-- inferAwarenessLevel (lines 332-347); the default branch is unreachable
over the closed objective enumeration. -/
def inferAwarenessLevel (objective : Objective) : AwarenessLevel :=
  match objective with
  | .competitorAnalysis => .solutionAware
  | .marketTrends => .problemAware
  | .audienceInsights => .productAware
  | .fullResearch => .solutionAware

/-- extractKeywords (lines 349-358). -/
def extractKeywords (text : Str) : List Str :=
  ((splitWsTokens (lowerStr text)).filter (fun w => w.length > 4)).take 10

/-- extractEmotionalTriggers (lines 360-372): a fixed 7-entry table over the
tone enumeration (the || professional fallback is unreachable over the
closed enumeration). -/
def extractEmotionalTriggers (tone : Tone) : List Str :=
  match tone with
  | .professional => [str ("trust"), str ("reliability"), str ("expertise"), str ("results")]
  | .casual => [str ("easy"), str ("simple"), str ("friendly"), str ("relatable")]
  | .friendly => [str ("helpful"), str ("supportive"), str ("caring"), str ("welcoming")]
  | .urgent => [str ("now"), str ("limited"), str ("act fast"), str ("don\x27t miss")]
  | .humorous => [str ("fun"), str ("entertaining"), str ("enjoyable"), str ("lighthearted")]
  | .authoritative => [str ("proven"), str ("expert"), str ("leader"), str ("authority")]
  | .playful => [str ("exciting"), str ("creative"), str ("innovative"), str ("fresh")]

/-- The metrics record passed to calculateQualityScore (lines 170-175). -/
structure QualityMetrics where
  hasBrand : Bool
  hasCompetitors : Bool
  hasTrends : Bool
  hasPainPoints : Bool
deriving DecidableEq

/-- calculateQualityScore (lines 374-388). -/
def calculateQualityScore (metrics : QualityMetrics) : Nat :=
  (if metrics.hasBrand then 40 else 0) +
  (if metrics.hasCompetitors then 25 else 0) +
  (if metrics.hasTrends then 20 else 0) +
  (if metrics.hasPainPoints then 15 else 0)

/-- The number of successful optional sub-analyses a metrics record reports. -/
def countOptionalSignals (metrics : QualityMetrics) : Nat :=
  (if metrics.hasCompetitors then 1 else 0) +
  (if metrics.hasTrends then 1 else 0) +
  (if metrics.hasPainPoints then 1 else 0)
/-! ## Orchestrator pipeline (runResearch, lines 29-205) -/

/-- Resolution of the competitor branch of the Promise.allSettled fan-out
(lines 78, 94-98): the fulfilled value, or the default empty list when the
branch rejected. -/
def resolveCompetitors : Except Str (List CompetitorResult) → List CompetitorResult
  | .ok v => v
  | .error _ => []

/-- Resolution of the trend branch (lines 79-83, 100-104): the fulfilled
value, or the default trend data carrying the input keyword and empty
lists. -/
def resolveTrends (input : ResearchInput) : Except Str TrendData → TrendData
  | .ok v => v
  | .error _ => { keyword := input.productType, relatedQueries := [], risingTopics := [] }

/-- Resolution of the pain-point branch (lines 84, 106-110): the fulfilled
value, or the default empty list. -/
def resolvePainPoints : Except Str (List PainPoint) → List PainPoint
  | .ok v => v
  | .error _ => []

/-- The result compilation step (lines 123-188), building the fresh
ResearchResult from the brand research, the resolved fan-out values, the
derived location and the assembly timestamp.  hasBrand is !!brandResearch,
which is always true for the non-nullable brand value reaching this point. -/
def assembleResult (input : ResearchInput) (brandResearch : BrandResearch)
    (competitors : List CompetitorResult) (trends : TrendData)
    (painPoints : List PainPoint) (location : Str) (timestamp : Str) : ResearchResult :=
  { brand := brandResearch
    competitors :=
      { competitors := competitors.map (fun comp =>
          { name := comp.name
            url := comp.url
            strengths := extractStrengths comp.description
            weaknesses := [] })
        commonMessages := extractCommonMessages competitors
        opportunities := identifyOpportunities brandResearch competitors
        pricingStrategies := []
        uniqueAngles := suggestUniqueAngles brandResearch }
    market :=
      { trends := trends.risingTopics.map (fun topic =>
          { topic := topic, volume := .medium, momentum := .stable })
        painPoints := painPoints.map (fun pp => pp.text)
        popularSearches := trends.relatedQueries
        seasonalPatterns := []
        emergingOpportunities := trends.risingTopics.take 5 }
    audience :=
      { demographics :=
          { ageRanges := inferAgeRanges brandResearch.targetMarkets
            locations := [location]
            incomeLevel := inferIncomeLevel brandResearch.productCategories
            occupation := inferOccupations brandResearch.targetMarkets }
        awarenessLevel := inferAwarenessLevel input.objective
        commonLanguage :=
          { keywords := extractKeywords brandResearch.valueProposition
            phrases := brandResearch.differentiators.take 5
            jargon := []
            emotionalTriggers := extractEmotionalTriggers brandResearch.tone }
        behaviors :=
          { purchaseDrivers := brandResearch.differentiators
            objections := (painPoints.map (fun pp => pp.text)).take 5
            preferredChannels := [str ("online"), str ("social media")] } }
    timestamp := timestamp
    cached := false
    qualityScore := calculateQualityScore
      { hasBrand := true
        hasCompetitors := decide (competitors.length > 0)
        hasTrends := decide (trends.relatedQueries.length > 0)
        hasPainPoints := decide (painPoints.length > 0) }
    sources :=
      [{ type := .webScrape, url := input.url, reliability := .high },
       { type := .searchResults, url := str ("https://google.com"), reliability := .high }] }

/-- runResearch (lines 29-205) on the value level.  The network outcomes are
passed explicitly: hostname is the parse of input.url, cacheFetched the raw
store lookup (line 42 goes through getCachedResearch), brand the outcome of
researchBrand, and the three market outcomes feed the all-settled fan-out.
The fire-and-forget cache write (line 195) has a .catch handler and never
affects the returned value.  An error result models a throw to the caller. -/
def runResearch (input : ResearchInput) (forceRefresh : Bool) (hostname : Option Str)
    (cacheFetched : Option ResearchResult) (brand : Except Str BrandResearch)
    (competitorOutcome : Except Str (List CompetitorResult))
    (trendOutcome : Except Str TrendData)
    (painPointOutcome : Except Str (List PainPoint)) (timestamp : Str) :
    Except Str ResearchResult :=
  match (if forceRefresh then none else getCachedResearch cacheFetched) with
  | some cachedResult => .ok cachedResult
  | none =>
    match brand with
    | .error e => .error (str ("Failed to analyze website: ") ++ e)
    | .ok brandResearch =>
      .ok (assembleResult input brandResearch
        (resolveCompetitors competitorOutcome)
        (resolveTrends input trendOutcome)
        (resolvePainPoints painPointOutcome)
        (usedLocation input hostname) timestamp)

/-! ## Research API route model (POST handler and validateEnvironment) -/

/-- The validated request after schema parsing: websiteUrl a well-formed URL
string, productType at least 2 characters, campaignGoal from the closed
enumeration, location defaulted to "USA", forceRefresh defaulted to false. -/
structure ValidatedRequest where
  websiteUrl : Str
  productType : Str
  campaignGoal : Objective
  location : Str
  forceRefresh : Bool
deriving DecidableEq

/-- The ResearchInput construction of the POST handler (route lines 513-517):
only url, productType and objective are copied; the validated location is NOT
forwarded, so the orchestrator sees an absent location property. -/
def routeBuildInput (v : ValidatedRequest) : ResearchInput :=
  { url := v.websiteUrl
    productType := v.productType
    objective := v.campaignGoal
    location := none }

/-- The three required credentials checked by validateEnvironment. -/
def requiredKeys : List Str :=
  [str ("FIRECRAWL_API_KEY"), str ("SERP_API_KEY"), str ("ANTHROPIC_API_KEY")]

/-- JavaScript truthiness of a process.env entry: undefined and the empty
string are falsy. -/
def envTruthy : Option Str → Bool
  | none => false
  | some s => !s.isEmpty

/-- validateEnvironment (route lines 448-456): valid iff no required key is
missing, together with the list of missing key names. -/
def validateEnvironment (env : Str → Option Str) : Bool × List Str :=
  let missing := requiredKeys.filter (fun key => !envTruthy (env key))
  (missing.isEmpty, missing)

/-- The externally observable steps of the research pipeline, in the order
the POST handler and runResearch perform them.  All steps except
validateBody reach the network. -/
inductive PipelineStep
  | validateBody | cacheGet | brandAnalysis | competitorSearch | trendSearch
  | painPointSearch | cacheWrite
deriving DecidableEq

/-- The HTTP response shape of the research route: success flag, error
message when failing, status code. -/
structure ApiResponse where
  success : Bool
  error : Option Str
  status : Nat
deriving DecidableEq

/-- The step trace of runResearch for given outcomes: the cache check
(skipped under forceRefresh), then brand analysis on a miss, then the three
market queries and the cache write once the brand succeeded. -/
def researchSteps (forceRefresh : Bool) (cacheFetched : Option ResearchResult)
    (brand : Except Str BrandResearch) : List PipelineStep :=
  (if forceRefresh then [] else [PipelineStep.cacheGet]) ++
  match (if forceRefresh then none else getCachedResearch cacheFetched) with
  | some _ => []
  | none =>
    [PipelineStep.brandAnalysis] ++
    match brand with
    | .error _ => []
    | .ok _ => [PipelineStep.competitorSearch, PipelineStep.trendSearch,
        PipelineStep.painPointSearch, PipelineStep.cacheWrite]

/-- The error classification of the POST handler (route lines 524-572). -/
def classifyRouteError (e : Str) : ApiResponse :=
  if containsStr e (str ("rate limit")) then
    { success := false
      error := some (str ("API rate limit exceeded. Please try again in a few minutes."))
      status := 429 }
  else if containsStr e (str ("timeout")) || containsStr e (str ("timed out")) then
    { success := false
      error := some (str ("Research request timed out. Please try again with a simpler query."))
      status := 504 }
  else if containsStr e (str ("Invalid URL")) || containsStr e (str ("Failed to scrape")) then
    { success := false
      error := some (str ("Unable to analyze website: ") ++ e)
      status := 400 }
  else
    { success := false, error := some (str ("Research failed: ") ++ e), status := 500 }

/-- The POST handler (route lines 461-579) paired with the list of pipeline
steps it performs.  The environment gate runs first: when any required key is
missing it answers 503 with an empty step trace — before body validation and
before any network-reaching step.  body is the schema-validation outcome of
the parsed request body (none when validation fails with a 400). -/
def postHandler (env : Str → Option Str) (body : Option ValidatedRequest)
    (hostname : Option Str) (cacheFetched : Option ResearchResult)
    (brand : Except Str BrandResearch)
    (competitorOutcome : Except Str (List CompetitorResult))
    (trendOutcome : Except Str TrendData)
    (painPointOutcome : Except Str (List PainPoint)) (timestamp : Str) :
    ApiResponse × List PipelineStep :=
  let envCheck := validateEnvironment env
  if !envCheck.1 then
    ({ success := false
       error := some (str ("Missing required API keys: ") ++
         List.intercalate (str (", ")) envCheck.2 ++
         str (". Please configure environment variables."))
       status := 503 }, [])
  else
    match body with
    | none =>
      ({ success := false, error := some (str ("Invalid request data")), status := 400 },
       [PipelineStep.validateBody])
    | some v =>
      let steps := PipelineStep.validateBody ::
        researchSteps v.forceRefresh cacheFetched brand
      match runResearch (routeBuildInput v) v.forceRefresh hostname cacheFetched brand
        competitorOutcome trendOutcome painPointOutcome timestamp with
      | .ok _ => ({ success := true, error := none, status := 200 }, steps)
      | .error e => (classifyRouteError e, steps)

/-! ## Definitions taken from the specification wording, for comparison -/

/-- Modelled from the spec wording of the cache key (for comparison with the
source's replace call): the hostname with a LEADING "www." removed, and only
a leading one. -/
def stripLeadingWww (host : Str) : Str :=
  if isPre (str ("www.")) host then host.drop 4 else host

/-- Modelled from the spec wording of the pain-point key (for comparison
with the source's key): lowercased, ALL non-alphanumeric characters removed
(whitespace included), truncated to the first 50 characters. -/
def specNormalizedKey (text : Str) : Str :=
  ((lowerStr text).filter (fun c => ('a' ≤ c && c ≤ 'z') || ('0' ≤ c && c ≤ '9'))).take 50

/-- Boolean key comparison used to speak about first occurrences: does x
carry the same deduplication key as p? -/
def sameKey (p x : PainPoint) : Bool := painPointKey x.text == painPointKey p.text

/-- backoffDelay attempt msg: the sleep scrapeWebsite performs after the
failed attempt number `attempt` ended with message msg — 5000*attempt on a
rate-limit classification, 1000*2^(attempt-1) otherwise. -/
def backoffDelay (attempt : Nat) (msg : Str) : Nat :=
  if containsStr msg rateLimitMark then 5000 * attempt else 1000 * 2 ^ (attempt - 1)

/-! ## Concrete fixtures used by the witness theorems -/

/-- A concrete brand record. -/
def sampleBrand : BrandResearch :=
  { name := str ("Acme")
    tone := .professional
    valueProposition := str ("Project management that ships")
    differentiators := [str ("automation"), str ("templates")]
    productCategories := [str ("software")]
    targetMarkets := [str ("small teams")] }

/-- A concrete research input. -/
def sampleInput : ResearchInput :=
  { url := str ("https://acme.com")
    productType := str ("project management software")
    objective := .fullResearch
    location := none }

/-- A concrete competitor search result. -/
def sampleCompetitor : CompetitorResult :=
  { name := str ("rival.com")
    url := str ("https://rival.com")
    title := str ("Rival")
    description := str ("top quality service")
    position := 1 }

/-- A concrete trend record. -/
def sampleTrendData : TrendData :=
  { keyword := str ("project management software")
    relatedQueries := [str ("best pm tool")]
    risingTopics := [str ("automation")] }

/-- A concrete pain point. -/
def samplePainPoint : PainPoint :=
  { text := str ("Too many notifications")
    source := str ("Reddit")
    url := str ("https://reddit.com/r/pm")
    mentions := 1 }

/-- A concrete assembled research result. -/
def sampleResult : ResearchResult :=
  assembleResult sampleInput sampleBrand [sampleCompetitor] sampleTrendData
    [samplePainPoint] (str ("USA")) (str ("2026-01-01T00:00:00.000Z"))

/-- The sample result with the cached flag forced, as a cache hit returns it. -/
def sampleCachedTrue : ResearchResult := { sampleResult with cached := true }

/-- A concrete validated route request that carries an explicit location. -/
def sampleRequest : ValidatedRequest :=
  { websiteUrl := str ("https://example.com")
    productType := str ("saas")
    campaignGoal := .fullResearch
    location := str ("France")
    forceRefresh := false }

/-! ## Claim theorems -/

/-- C1: with brand present, the quality score equals 40 plus 25 for a
non-empty competitor list, 20 for non-empty related queries, 15 for
non-empty pain points; the score never decreases when further optional
signals succeed (pointwise monotone, and strictly larger for a strictly
larger number of successes), is 40 with brand alone, 100 with all four
signals, and always lies in {40,55,60,65,75,80,85,95,100}. -/
theorem C1_quality_score :
    ∀ c t p c2 t2 p2 : Bool,
      calculateQualityScore ⟨true, c, t, p⟩ =
        40 + (if c then 25 else 0) + (if t then 20 else 0) + (if p then 15 else 0) ∧
      (c ≤ c2 → t ≤ t2 → p ≤ p2 →
        calculateQualityScore ⟨true, c, t, p⟩ ≤ calculateQualityScore ⟨true, c2, t2, p2⟩) ∧
      (countOptionalSignals ⟨true, c, t, p⟩ < countOptionalSignals ⟨true, c2, t2, p2⟩ →
        calculateQualityScore ⟨true, c, t, p⟩ < calculateQualityScore ⟨true, c2, t2, p2⟩) ∧
      calculateQualityScore ⟨true, false, false, false⟩ = 40 ∧
      calculateQualityScore ⟨true, true, true, true⟩ = 100 ∧
      calculateQualityScore ⟨true, c, t, p⟩ ∈ [40, 55, 60, 65, 75, 80, 85, 95, 100] := by
  decide

/-- C1 witness: the monotonicity hypotheses discharged at a concrete pair of
metric records. -/
theorem C1_quality_score_witness :
    calculateQualityScore ⟨true, false, false, true⟩ ≤
      calculateQualityScore ⟨true, true, false, true⟩ :=
  (C1_quality_score false false true true false true).2.1
    (by decide) (by decide) (by decide)

/-- C2: the record written by the cache-store set has cached = false
whatever the input flag; every successful cache-store get returns a record
with cached = true; a freshly assembled result has cached = false. -/
theorem C2_cached_flag :
    (∀ d : ResearchResult, (setCachedResearch d).cached = false) ∧
    (∀ d r : ResearchResult, getCachedResearch (some d) = some r → r.cached = true) ∧
    (∀ input brandResearch competitors trends painPoints location timestamp,
      (assembleResult input brandResearch competitors trends painPoints location
        timestamp).cached = false) := by
  refine ⟨fun d => rfl, fun d r h => ?_, fun _ _ _ _ _ _ _ => rfl⟩
  simp only [getCachedResearch, Option.some.injEq] at h
  rw [← h]

/-- C2 witness: the get hypothesis discharged at the sample record. -/
theorem C2_cached_flag_witness :
    getCachedResearch (some sampleResult) = some sampleCachedTrue ∧
    sampleCachedTrue.cached = true :=
  ⟨rfl, C2_cached_flag.2.1 sampleResult sampleCachedTrue rfl⟩

/-- C10: every freshly assembled result carries exactly two sources — a
high-reliability web-scrape of the input URL and a high-reliability
search-results entry for https://google.com — for every combination of
fan-out outcomes, failed ones included. -/
theorem C10_sources :
    ∀ (input : ResearchInput) (brandResearch : BrandResearch)
      (competitorOutcome : Except Str (List CompetitorResult))
      (trendOutcome : Except Str TrendData)
      (painPointOutcome : Except Str (List PainPoint)) (location timestamp : Str),
      (assembleResult input brandResearch (resolveCompetitors competitorOutcome)
        (resolveTrends input trendOutcome) (resolvePainPoints painPointOutcome)
        location timestamp).sources =
      [{ type := .webScrape, url := input.url, reliability := .high },
       { type := .searchResults, url := str ("https://google.com"), reliability := .high }] := by
  intro input brandResearch competitorOutcome trendOutcome painPointOutcome location timestamp
  rfl

/-- C3: in the market fan-out, each branch resolves independently — a failed
branch becomes its default (empty competitors; trend data with the input
keyword and empty lists; empty pain points), a fulfilled branch keeps its
value — and the resolved values of every branch flow into the assembled
result regardless of the other branches' outcomes. -/
theorem C3_fanout_isolation :
    ∀ (input : ResearchInput) (brandResearch : BrandResearch)
      (competitorOutcome : Except Str (List CompetitorResult))
      (trendOutcome : Except Str TrendData)
      (painPointOutcome : Except Str (List PainPoint)) (location timestamp : Str),
      (∀ e, competitorOutcome = .error e → resolveCompetitors competitorOutcome = []) ∧
      (∀ v, competitorOutcome = .ok v → resolveCompetitors competitorOutcome = v) ∧
      (∀ e, trendOutcome = .error e → resolveTrends input trendOutcome =
        { keyword := input.productType, relatedQueries := [], risingTopics := [] }) ∧
      (∀ v, trendOutcome = .ok v → resolveTrends input trendOutcome = v) ∧
      (∀ e, painPointOutcome = .error e → resolvePainPoints painPointOutcome = []) ∧
      (∀ v, painPointOutcome = .ok v → resolvePainPoints painPointOutcome = v) ∧
      ((assembleResult input brandResearch (resolveCompetitors competitorOutcome)
          (resolveTrends input trendOutcome) (resolvePainPoints painPointOutcome)
          location timestamp).market.popularSearches =
        (resolveTrends input trendOutcome).relatedQueries) ∧
      ((assembleResult input brandResearch (resolveCompetitors competitorOutcome)
          (resolveTrends input trendOutcome) (resolvePainPoints painPointOutcome)
          location timestamp).market.painPoints =
        (resolvePainPoints painPointOutcome).map (fun pp => pp.text)) ∧
      ((assembleResult input brandResearch (resolveCompetitors competitorOutcome)
          (resolveTrends input trendOutcome) (resolvePainPoints painPointOutcome)
          location timestamp).competitors.competitors =
        (resolveCompetitors competitorOutcome).map (fun comp =>
          { name := comp.name
            url := comp.url
            strengths := extractStrengths comp.description
            weaknesses := [] })) := by
  intro input brandResearch competitorOutcome trendOutcome painPointOutcome location timestamp
  refine ⟨fun e h => by subst h; rfl, fun v h => by subst h; rfl,
    fun e h => by subst h; rfl, fun v h => by subst h; rfl,
    fun e h => by subst h; rfl, fun v h => by subst h; rfl, rfl, rfl, rfl⟩

/-- C3 witness: a failed trend branch together with fulfilled competitor and
pain-point branches — the failure resolves to the default and the fulfilled
pain point still appears in the assembled market data. -/
theorem C3_fanout_isolation_witness :
    resolveTrends sampleInput (.error (str ("boom"))) =
      { keyword := sampleInput.productType, relatedQueries := [], risingTopics := [] } ∧
    resolvePainPoints (.ok [samplePainPoint]) = [samplePainPoint] ∧
    (assembleResult sampleInput sampleBrand (resolveCompetitors (.ok [sampleCompetitor]))
      (resolveTrends sampleInput (.error (str ("boom"))))
      (resolvePainPoints (.ok [samplePainPoint])) (str ("USA"))
      (str ("ts"))).market.painPoints = [samplePainPoint.text] := by
  obtain ⟨h1, h2, h3, h4, h5, h6, h7, h8, h9⟩ :=
    C3_fanout_isolation sampleInput sampleBrand (.ok [sampleCompetitor])
      (.error (str ("boom"))) (.ok [samplePainPoint]) (str ("USA")) (str ("ts"))
  exact ⟨h3 _ rfl, h6 _ rfl, by rw [h8]; rfl⟩

/-- C4: runResearch reports an error only out of the brand-analysis step,
wrapped with the descriptive marker; whenever brand analysis succeeds (or a
cache hit short-circuits), the fan-out, assembly and cache-write path always
completes with a ResearchResult. -/
theorem C4_fatal_only_from_brand :
    ∀ (input : ResearchInput) (forceRefresh : Bool) (hostname : Option Str)
      (cacheFetched : Option ResearchResult) (brand : Except Str BrandResearch)
      (competitorOutcome : Except Str (List CompetitorResult))
      (trendOutcome : Except Str TrendData)
      (painPointOutcome : Except Str (List PainPoint)) (timestamp : Str),
      (∀ msg, runResearch input forceRefresh hostname cacheFetched brand competitorOutcome
          trendOutcome painPointOutcome timestamp = .error msg →
        ∃ e, brand = .error e ∧ msg = str ("Failed to analyze website: ") ++ e) ∧
      (∀ b, brand = .ok b → ∃ res,
        runResearch input forceRefresh hostname cacheFetched brand competitorOutcome
          trendOutcome painPointOutcome timestamp = .ok res) := by
  intro input forceRefresh hostname cacheFetched brand competitorOutcome trendOutcome
    painPointOutcome timestamp
  constructor
  · intro msg h
    unfold runResearch at h
    cases hc : (if forceRefresh then none else getCachedResearch cacheFetched) with
    | some c => rw [hc] at h; exact absurd h (by simp)
    | none =>
      rw [hc] at h
      cases brand with
      | error e =>
        simp only [Except.error.injEq] at h
        exact ⟨e, rfl, h.symm⟩
      | ok b => exact absurd h (by simp)
  · intro b hb
    subst hb
    cases hc : (if forceRefresh then none else getCachedResearch cacheFetched) with
    | some c => exact ⟨c, by unfold runResearch; rw [hc]⟩
    | none => exact ⟨_, by unfold runResearch; rw [hc]⟩

/-- C4 witness: the error shape at a concrete failing brand analysis and the
guaranteed success at a concrete succeeding one, all other branches failing. -/
theorem C4_fatal_only_from_brand_witness :
    (∃ e, (Except.error (str ("boom")) : Except Str BrandResearch) = .error e ∧
      str ("Failed to analyze website: boom") = str ("Failed to analyze website: ") ++ e) ∧
    (∃ res, runResearch sampleInput false none none (.ok sampleBrand)
      (.error (str ("c"))) (.error (str ("t"))) (.error (str ("p")))
      (str ("ts")) = .ok res) := by
  constructor
  · exact (C4_fatal_only_from_brand sampleInput false none none (.error (str ("boom")))
      (.error (str ("c"))) (.error (str ("t"))) (.error (str ("p")))
      (str ("ts"))).1 (str ("Failed to analyze website: boom")) (by decide)
  · exact (C4_fatal_only_from_brand sampleInput false none none (.ok sampleBrand)
      (.error (str ("c"))) (.error (str ("t"))) (.error (str ("p")))
      (str ("ts"))).2 sampleBrand rfl

/-- C5 counterexample: JavaScript replace removes the FIRST occurrence of
"www.", not only a leading one.  For the parseable URL with hostname
a.www.b.com the derived key is research:a.b.com, not the claimed
research:a.www.b.com; and the two hostnames www.a.www.b.com and a.www.b.com
are equal after ignoring a leading "www." yet derive different keys. -/
theorem C5_cache_key_counterexample :
    getCacheKey (some (str ("a.www.b.com"))) (str ("https://a.www.b.com/")) =
      str ("research:a.b.com") ∧
    str ("research:a.b.com") ≠
      str ("research:") ++ stripLeadingWww (str ("a.www.b.com")) ∧
    stripLeadingWww (str ("www.a.www.b.com")) = stripLeadingWww (str ("a.www.b.com")) ∧
    getCacheKey (some (str ("www.a.www.b.com"))) (str ("https://www.a.www.b.com/x")) ≠
      getCacheKey (some (str ("a.www.b.com"))) (str ("https://a.www.b.com/y")) := by
  decide

/-- C5 amended: for a parseable URL the key is "research:" plus the hostname
with the FIRST occurrence of "www." removed; on parse failure the key is
"research:" plus the input with every non-alphanumeric character replaced by
an underscore; any two URLs whose hostnames agree after that first-occurrence
removal derive identical keys regardless of scheme, path or query. -/
theorem C5_cache_key_amended :
    ∀ (host url host2 url2 : Str),
      getCacheKey (some host) url = str ("research:") ++ replaceFirst host (str ("www.")) [] ∧
      getCacheKey none url = str ("research:") ++ url.map sanitizeChar ∧
      (replaceFirst host (str ("www.")) [] = replaceFirst host2 (str ("www.")) [] →
        getCacheKey (some host) url = getCacheKey (some host2) url2) := by
  intro host url host2 url2
  refine ⟨rfl, rfl, fun h => ?_⟩
  simp only [getCacheKey, h]

/-- C5 amended witness: the collision hypothesis discharged for
https://www.example.com/ and https://example.com/page?q=1. -/
theorem C5_cache_key_amended_witness :
    getCacheKey (some (str ("www.example.com"))) (str ("https://www.example.com/")) =
      getCacheKey (some (str ("example.com"))) (str ("https://example.com/page?q=1")) :=
  (C5_cache_key_amended (str ("www.example.com")) (str ("https://www.example.com/"))
    (str ("example.com")) (str ("https://example.com/page?q=1"))).2.2 (by decide)

/-- C6 counterexample: extractLocation matches ".ca" as a SUBSTRING of the
hostname, so shop.ca.example.com — whose top-level domain is .com, for which
the claim predicts "USA" — yields "Canada"; and the research route drops the
validated location when building the ResearchInput, so a request carrying the
explicit location "France" still has the fan-out location inferred from the
URL ("USA" for example.com), not "France". -/
theorem C6_location_counterexample :
    extractLocation (some (str ("shop.ca.example.com"))) = str ("Canada") ∧
    str ("Canada") ≠ str ("USA") ∧
    (routeBuildInput sampleRequest).location = none ∧
    sampleRequest.location = str ("France") ∧
    usedLocation (routeBuildInput sampleRequest) (some (str ("example.com"))) = str ("USA") ∧
    str ("USA") ≠ str ("France") := by
  decide

/-- C6 amended: the fan-out location is the input's location property when
present and non-empty; otherwise it is derived from the hostname by ordered
substring matching — ".uk" gives United Kingdom, then ".ca" Canada, then
".au" Australia, else USA, and unparseable URLs give USA; the research route
never forwards the validated location, so endpoint-built inputs always use
the inferred value; the chosen location is recorded in the assembled
audience demographics. -/
theorem C6_location_amended :
    ∀ (input : ResearchInput) (hostname : Option Str) (l : Str) (v : ValidatedRequest)
      (brandResearch : BrandResearch) (competitors : List CompetitorResult)
      (trends : TrendData) (painPoints : List PainPoint) (timestamp : Str),
      (input.location = none → usedLocation input hostname = extractLocation hostname) ∧
      (input.location = some l → l ≠ [] → usedLocation input hostname = l) ∧
      ((routeBuildInput v).location = none) ∧
      (∀ h : Str, extractLocation (some h) =
        if containsStr h (str (".uk")) then str ("United Kingdom")
        else if containsStr h (str (".ca")) then str ("Canada")
        else if containsStr h (str (".au")) then str ("Australia")
        else str ("USA")) ∧
      (extractLocation none = str ("USA")) ∧
      ((assembleResult input brandResearch competitors trends painPoints
          (usedLocation input hostname) timestamp).audience.demographics.locations =
        [usedLocation input hostname]) := by
  intro input hostname l v brandResearch competitors trends painPoints timestamp
  refine ⟨fun h => ?_, fun h hl => ?_, rfl, fun h => rfl, rfl, rfl⟩
  · simp [usedLocation, h]
  · simp [usedLocation, h, List.isEmpty_iff, hl]

/-- C6 amended witness: the hypotheses discharged at an input that carries
the explicit non-empty location "France". -/
theorem C6_location_amended_witness :
    usedLocation
      { url := str ("https://example.com"), productType := str ("saas"),
        objective := .fullResearch, location := some (str ("France")) }
      (some (str ("example.com"))) = str ("France") :=
  (C6_location_amended
    { url := str ("https://example.com"), productType := str ("saas"),
      objective := .fullResearch, location := some (str ("France")) }
    (some (str ("example.com"))) (str ("France")) sampleRequest sampleBrand []
    sampleTrendData [] (str ("ts"))).2.1 rfl (by decide)

/-- The deduplication walk returns a sublist of its input, so relative order
is preserved. -/
theorem dedupAux_sublist (seen : List Str) (pts : List PainPoint) :
    List.Sublist (dedupAux seen pts) pts := by
  induction pts generalizing seen with
  | nil => simp [dedupAux]
  | cons p ps ih =>
    simp only [dedupAux]
    split
    · exact List.Sublist.cons p (ih seen)
    · exact List.Sublist.cons₂ p (ih _)

/-- Every point kept by the walk has a key outside the seen set. -/
theorem dedupAux_key_not_seen {seen : List Str} {pts : List PainPoint} {q : PainPoint}
    (hq : q ∈ dedupAux seen pts) : painPointKey q.text ∉ seen := by
  induction pts generalizing seen with
  | nil => simp [dedupAux] at hq
  | cons p ps ih =>
    simp only [dedupAux] at hq
    split at hq
    · exact ih hq
    · rename_i hk
      rcases List.mem_cons.mp hq with rfl | hq2
      · exact hk
      · have h2 := ih hq2
        exact fun hmem => h2 (List.mem_cons_of_mem _ hmem)

/-- The keys of the points kept by the walk are pairwise distinct. -/
theorem dedupAux_keys_nodup (seen : List Str) (pts : List PainPoint) :
    ((dedupAux seen pts).map (fun p => painPointKey p.text)).Nodup := by
  induction pts generalizing seen with
  | nil => simp [dedupAux]
  | cons p ps ih =>
    simp only [dedupAux]
    split
    · exact ih seen
    · simp only [List.map_cons, List.nodup_cons]
      refine ⟨fun hmem => ?_, ih _⟩
      rcases List.mem_map.mp hmem with ⟨q, hq, hkey⟩
      exact dedupAux_key_not_seen hq (by rw [hkey]; exact List.mem_cons_self _ _)

/-- For every input point whose key is not already seen, the FIRST input
point bearing that key is among the kept points. -/
theorem dedupAux_first_mem {seen : List Str} {pts : List PainPoint} {p : PainPoint}
    (hp : p ∈ pts) (hkey : painPointKey p.text ∉ seen) :
    ∃ q, pts.find? (sameKey p) = some q ∧ q ∈ dedupAux seen pts := by
  induction pts generalizing seen with
  | nil => cases hp
  | cons x xs ih =>
    by_cases hx : painPointKey x.text = painPointKey p.text
    · refine ⟨x, ?_, ?_⟩
      · exact List.find?_cons_of_pos _ (by simp [sameKey, hx])
      · simp only [dedupAux]
        split
        · rename_i hmem
          exact absurd (hx ▸ hmem) hkey
        · exact List.mem_cons_self _ _
    · have hpx : p ∈ xs := by
        rcases List.mem_cons.mp hp with rfl | h2
        · exact absurd rfl hx
        · exact h2
      have hfneg : ∀ l : List PainPoint, (x :: l).find? (sameKey p) = l.find? (sameKey p) :=
        fun l => List.find?_cons_of_neg _ (by simp [sameKey, hx])
      simp only [dedupAux]
      split
      · obtain ⟨q, hfind, hq⟩ := ih hpx hkey
        exact ⟨q, by rw [hfneg, hfind], hq⟩
      · have hkey2 : painPointKey p.text ∉ painPointKey x.text :: seen := by
          intro hIn
          rcases List.mem_cons.mp hIn with he | hs
          · exact hx he.symm
          · exact hkey hs
        obtain ⟨q, hfind, hq⟩ := ih hpx hkey2
        exact ⟨q, by rw [hfneg, hfind], List.mem_cons_of_mem _ hq⟩

/-- Every kept point is the first input point bearing its key. -/
theorem dedupAux_kept_is_first {seen : List Str} {pts : List PainPoint} {q : PainPoint}
    (hq : q ∈ dedupAux seen pts) : pts.find? (sameKey q) = some q := by
  induction pts generalizing seen with
  | nil => simp [dedupAux] at hq
  | cons x xs ih =>
    simp only [dedupAux] at hq
    split at hq
    · rename_i hmem
      have hqk := dedupAux_key_not_seen hq
      have hne : painPointKey x.text ≠ painPointKey q.text := fun he => hqk (he ▸ hmem)
      rw [List.find?_cons_of_neg _ (by simp [sameKey, hne]), ih hq]
    · rename_i hmem
      rcases List.mem_cons.mp hq with rfl | hq2
      · exact List.find?_cons_of_pos _ (by simp [sameKey])
      · have hqk := dedupAux_key_not_seen hq2
        have hne : painPointKey x.text ≠ painPointKey q.text := by
          intro he
          exact hqk (by rw [← he]; exact List.mem_cons_self _ _)
        rw [List.find?_cons_of_neg _ (by simp [sameKey, hne]), ih hq2]

/-- C7 counterexample: the source's deduplication key KEEPS whitespace (the
regex class is [^a-z0-9\s]), so the texts "ab cd" and "abcd" — whose claimed
normalized keys (all non-alphanumerics stripped) coincide — do NOT collapse:
both entries survive deduplication. -/
theorem C7_pain_point_dedup_counterexample :
    specNormalizedKey (str ("ab cd")) = specNormalizedKey (str ("abcd")) ∧
    painPointKey (str ("ab cd")) ≠ painPointKey (str ("abcd")) ∧
    deduplicatePainPoints
      [{ text := str ("ab cd"), source := str ("Web"), url := str ("u1"), mentions := 1 },
       { text := str ("abcd"), source := str ("Web"), url := str ("u2"), mentions := 1 }] =
      [{ text := str ("ab cd"), source := str ("Web"), url := str ("u1"), mentions := 1 },
       { text := str ("abcd"), source := str ("Web"), url := str ("u2"), mentions := 1 }] := by
  decide

/-- C7 amended: two pain points collapse when their keys — the text
lowercased, characters other than lowercase letters, digits and whitespace
removed, trimmed at both ends, truncated to 50 characters — coincide; the
first occurrence is kept, kept entries retain their relative input order,
every input key is represented by its first bearer, and searchPainPoints
returns at most the first 10 deduplicated points. -/
theorem C7_pain_point_dedup_amended :
    ∀ collected : List PainPoint,
      List.Sublist (deduplicatePainPoints collected) collected ∧
      ((deduplicatePainPoints collected).map (fun p => painPointKey p.text)).Nodup ∧
      (∀ p ∈ collected, ∃ q, collected.find? (sameKey p) = some q ∧
        q ∈ deduplicatePainPoints collected) ∧
      (∀ q ∈ deduplicatePainPoints collected, collected.find? (sameKey q) = some q) ∧
      (searchPainPoints collected).length ≤ 10 ∧
      List.Sublist (searchPainPoints collected) (deduplicatePainPoints collected) := by
  intro collected
  refine ⟨dedupAux_sublist [] collected, dedupAux_keys_nodup [] collected,
    fun p hp => dedupAux_first_mem hp (by simp),
    fun q hq => dedupAux_kept_is_first hq, ?_, List.take_sublist _ _⟩
  rw [searchPainPoints, List.length_take]
  exact min_le_left _ _

/-- C7 amended witness: the membership hypotheses discharged at a concrete
two-point list whose entries share a key. -/
theorem C7_pain_point_dedup_amended_witness :
    ∃ q, [samplePainPoint, { samplePainPoint with url := str ("u2") }].find?
        (sameKey { samplePainPoint with url := str ("u2") }) = some q ∧
      q ∈ deduplicatePainPoints [samplePainPoint, { samplePainPoint with url := str ("u2") }] :=
  (C7_pain_point_dedup_amended
    [samplePainPoint, { samplePainPoint with url := str ("u2") }]).2.2.1
    { samplePainPoint with url := str ("u2") }
    (List.mem_cons_of_mem _ (List.mem_cons_self _ _))

/-- C8: scrapeWebsite rejects an invalid URL before any attempt with a
descriptive error; otherwise it makes at most 3 attempts, sleeping
backoffDelay after each failed attempt that is followed by another (and
after a final rate-limit failure, per the unguarded rate-limit branch), and
after 3 failures it reports a terminal error naming the URL and the attempt
count 3. -/
theorem C8_scrape_retry :
    ∀ (url : Str) (oracle : Nat → Except Str Str),
      scrapeWebsite false url oracle 3 =
        { outcome := .error (str ("Invalid URL format: ") ++ url), attempts := 0,
          delays := [] } ∧
      (scrapeWebsite true url oracle 3).attempts ≤ 3 ∧
      (∀ c, oracle 1 = .ok c →
        scrapeWebsite true url oracle 3 = { outcome := .ok c, attempts := 1, delays := [] }) ∧
      (∀ e1 c, oracle 1 = .error e1 → oracle 2 = .ok c →
        scrapeWebsite true url oracle 3 =
          { outcome := .ok c, attempts := 2, delays := [backoffDelay 1 e1] }) ∧
      (∀ e1 e2 c, oracle 1 = .error e1 → oracle 2 = .error e2 → oracle 3 = .ok c →
        scrapeWebsite true url oracle 3 =
          { outcome := .ok c, attempts := 3,
            delays := [backoffDelay 1 e1, backoffDelay 2 e2] }) ∧
      (∀ e1 e2 e3, oracle 1 = .error e1 → oracle 2 = .error e2 → oracle 3 = .error e3 →
        scrapeWebsite true url oracle 3 =
          { outcome := .error (str ("Failed to scrape ") ++ url ++ str (" after ") ++
              natToStr 3 ++ str (" attempts: ") ++ e3)
            attempts := 3
            delays := [backoffDelay 1 e1, backoffDelay 2 e2] ++
              (if containsStr e3 rateLimitMark then [15000] else []) }) := by
  intro url oracle
  refine ⟨rfl, ?_, fun c h1 => ?_, fun e1 c h1 h2 => ?_, fun e1 e2 c h1 h2 h3 => ?_,
    fun e1 e2 e3 h1 h2 h3 => ?_⟩
  · rcases h1 : oracle 1 with e1 | c1
    · rcases h2 : oracle 2 with e2 | c2
      · rcases h3 : oracle 3 with e3 | c3 <;>
          simp [scrapeWebsite, scrapeGo, h1, h2, h3]
      · simp [scrapeWebsite, scrapeGo, h1, h2]
    · simp [scrapeWebsite, scrapeGo, h1]
  · simp [scrapeWebsite, scrapeGo, h1]
  · simp [scrapeWebsite, scrapeGo, h1, h2, backoffDelay]
    split_ifs <;> simp
  · simp [scrapeWebsite, scrapeGo, h1, h2, h3, backoffDelay]
    split_ifs <;> simp
  · by_cases hr : containsStr e3 rateLimitMark = true <;>
      simp [scrapeWebsite, scrapeGo, h1, h2, h3, backoffDelay, hr] <;>
      split_ifs <;> simp

/-- C8 witness: the retry equations discharged at a concrete oracle whose
three attempts all fail with a plain error, rendering the terminal message
and the delays 1000 and 2000. -/
theorem C8_scrape_retry_witness :
    scrapeWebsite true (str ("https://acme.com")) (fun _ => .error (str ("boom"))) 3 =
      { outcome := .error (str ("Failed to scrape https://acme.com after 3 attempts: boom"))
        attempts := 3
        delays := [1000, 2000] } := by
  have h := (C8_scrape_retry (str ("https://acme.com"))
    (fun _ => .error (str ("boom")))).2.2.2.2.2 (str ("boom")) (str ("boom")) (str ("boom"))
    rfl rfl rfl
  rw [h]
  decide

/-- C9: when any of the three required API credentials is absent from the
environment, the environment check fails and the research endpoint answers
with the 503 configuration error naming the missing keys while performing NO
pipeline step at all — no body validation, no cache access, no brand
analysis, no market query. -/
theorem C9_env_gate :
    ∀ (env : Str → Option Str) (body : Option ValidatedRequest) (hostname : Option Str)
      (cacheFetched : Option ResearchResult) (brand : Except Str BrandResearch)
      (competitorOutcome : Except Str (List CompetitorResult))
      (trendOutcome : Except Str TrendData)
      (painPointOutcome : Except Str (List PainPoint)) (timestamp : Str),
      (∀ key, key ∈ requiredKeys → env key = none → (validateEnvironment env).1 = false) ∧
      ((validateEnvironment env).1 = false →
        postHandler env body hostname cacheFetched brand competitorOutcome trendOutcome
          painPointOutcome timestamp =
        ({ success := false
           error := some (str ("Missing required API keys: ") ++
             List.intercalate (str (", ")) (validateEnvironment env).2 ++
             str (". Please configure environment variables."))
           status := 503 }, [])) := by
  intro env body hostname cacheFetched brand competitorOutcome trendOutcome
    painPointOutcome timestamp
  constructor
  · intro key hk he
    have hmem : key ∈ requiredKeys.filter (fun k => !envTruthy (env k)) :=
      List.mem_filter.mpr ⟨hk, by simp [he, envTruthy]⟩
    simp only [validateEnvironment]
    rw [Bool.eq_false_iff]
    intro hemp
    rw [List.isEmpty_iff] at hemp
    rw [hemp] at hmem
    cases hmem
  · intro hv
    simp only [postHandler, hv, Bool.not_false, if_true]

/-- C9 witness: the gate discharged at the empty environment — the response
names all three missing keys and the step trace is empty. -/
theorem C9_env_gate_witness :
    postHandler (fun _ => none) (some sampleRequest) none none
      (.ok sampleBrand) (.ok []) (.ok sampleTrendData) (.ok []) (str ("ts")) =
    ({ success := false
       error := some (str ("Missing required API keys: FIRECRAWL_API_KEY, SERP_API_KEY, ANTHROPIC_API_KEY. Please configure environment variables."))
       status := 503 }, []) := by
  have h := (C9_env_gate (fun _ => none) (some sampleRequest) none none
    (.ok sampleBrand) (.ok []) (.ok sampleTrendData) (.ok []) (str ("ts"))).2 (by decide)
  rw [h]
  decide
